import Mathlib

/-!
Verification development for the ai-closet personal-styling application.

The personalization core of the repository is specified in `spec.md`
(style-profile building, multi-source feature fusion, outfit matching).
This file gives a shallow embedding of the relevant code:

* `frontend/src/api/quiz.ts` and the category-mapping module
  (`CATEGORY_DISPLAY_NAMES`) are TypeScript present in the repository and
  are translated directly.
* The production-plan document carries concrete Python for the hybrid
  analyzer cache (`HybridClothingAnalyzer.analyze`, Redis cache with
  `ttl=3600`) and the personalized match score
  (`calculate_personalized_match_score`); these snippets are translated
  directly.
* The backend quiz scoring service (`scoring_service.py`) is not in the
  repository snapshot; its behaviour is documented in
  `backend/static/quiz-items/README.md` ("Backend counts category
  occurrences … Random selection if tied"), which is embedded here with
  the random tie choice as an explicit parameter.
* The fusion engine, the outfit matcher and `build_profile` itself have
  no code in the snapshot; they are modelled from the spec where a claim
  needs them (each such definition says so in its doc comment).

All scores and confidences are rationals (`ℚ`); JavaScript objects used
as string-keyed maps become association lists.
-/

/-! ## Frontend category mapping (category utility module) -/

/-- Embedding of the `CATEGORY_DISPLAY_NAMES` object literal:
backend category key paired with its display name, in declaration
order. -/
def CATEGORY_DISPLAY_NAMES : List (String × String) :=
  [("tops", "Tops"),
   ("bottoms", "Bottoms"),
   ("dresses", "Dresses"),
   ("outerwear", "Outerwear"),
   ("shoes", "Shoes"),
   ("accessories", "Accessories"),
   ("underwear", "Underwear"),
   ("activewear", "Activewear"),
   ("formal", "Outerwear & Layers"),
   ("casual", "Casual")]

/-- `Object.keys(CATEGORY_DISPLAY_NAMES)`: the backend category keys. -/
def CATEGORIES : List String := CATEGORY_DISPLAY_NAMES.map Prod.fst

/-- JavaScript `String.prototype.toLowerCase` restricted to the ASCII
strings this module uses. -/
def jsToLowerCase (s : String) : String := s.map Char.toLower

/-- `getCategoryDisplayName`: object lookup with `|| category` fallback
when the key is absent. -/
def getCategoryDisplayName (category : String) : String :=
  (CATEGORY_DISPLAY_NAMES.lookup category).getD category

/-- `getBackendCategoryName`: `Object.entries(...).find` on the display
name, returning the key, falling back to `displayName.toLowerCase()`. -/
def getBackendCategoryName (displayName : String) : String :=
  match CATEGORY_DISPLAY_NAMES.find? (fun e => e.2 == displayName) with
  | some e => e.1
  | none => jsToLowerCase displayName

/-! ## Frontend quiz API (`frontend/src/api/quiz.ts`) -/

/-- The `QuizResponse` interface: quiz submission result as the API
returns it to the UI.  `scores` is the string-keyed score object. -/
structure QuizResponse where
  id : String
  primary_style : String
  secondary_style : Option String
  style_message : String
  scores : List (String × ℚ)
  deriving Repr, DecidableEq

/-- The ten style categories used by the quiz mock data
(`mockStyles` in `fetchQuizQuestions`). -/
def mockStyles : List String :=
  ["Bohemian", "Streetwear", "Classic", "Feminine", "Edgy",
   "Athleisure", "Vintage", "Glamorous", "Eclectic", "Minimalist"]

/-- The mock `QuizResponse` returned by `submitQuiz` when
`VITE_USE_MOCKS` is on: its `scores` object lists only the three
categories with non-zero tallies. -/
def submitQuizMock : QuizResponse :=
  { id := "mock-response-1"
    primary_style := "Bohemian"
    secondary_style := some "Classic"
    style_message := "Bohemian with a hint of Classic"
    scores := [("Bohemian", 2), ("Classic", 2), ("Streetwear", 1)] }

/-- Outcome of `api.get`/`api.post`: axios either resolves with a value
or rejects with an error. -/
inductive ApiOutcome (α : Type) where
  | ok (data : α)
  | error (message : String)
  deriving Repr, DecidableEq

/-- `getLatestQuizResponse`: under mocks it returns `null`; otherwise it
awaits the HTTP request inside `try { return res.data } catch (err)
{ return null }`.  The embedding takes the outcome of the request as an
argument; the result type `Except String _` records whether the function
itself throws. -/
def getLatestQuizResponse (useMocks : Bool)
    (httpResult : ApiOutcome QuizResponse) :
    Except String (Option QuizResponse) :=
  if useMocks then .ok none
  else
    match httpResult with
    | .ok data => .ok (some data)
    | .error _ => .ok none

/-! ## Backend quiz scoring as documented
(`backend/static/quiz-items/README.md`) -/

/-- Tally of one style category over a submission, where a submission is
the sequence of the `style_category` tags of the five chosen items
("Backend counts category occurrences"). -/
def categoryTally (sels : List String) (c : String) : ℕ := sels.count c

/-- The top tally over the configured category list. -/
def topTallyDoc (cats : List String) (sels : List String) : ℕ :=
  (cats.map (categoryTally sels)).foldr max 0

/-- The categories whose tally reaches the top tally, in category
declaration order. -/
def topCategoriesDoc (cats : List String) (sels : List String) : List String :=
  cats.filter (fun c => categoryTally sels c = topTallyDoc cats sels)

/-- Primary style per the README: most frequent category, "Random
selection if tied".  The random pick is made explicit as a `choice`
parameter: a run of the backend corresponds to one choice value, and the
documented randomness means different runs may use different values. -/
def primaryStyleDoc (cats : List String) (sels : List String)
    (choice : ℕ) : Option String :=
  let tops := topCategoriesDoc cats sels
  tops.get? (choice % tops.length)

/-! ## Style Profile Builder (spec §4.3) -/

/-- Error taxonomy of the Style Profile Builder (spec §7). -/
inductive QuizError where
  | incompleteQuiz
  | unknownCategory
  deriving Repr, DecidableEq

/-- A quiz selection: one chosen item per question, tagged with the
style category of the chosen item. -/
structure QuizSelection where
  question_id : String
  chosen_item_id : String
  style_category : String
  deriving Repr, DecidableEq

/-- Clamp a rational to the unit interval. -/
def clamp01 (x : ℚ) : ℚ := max 0 (min x 1)

/-- The style profile produced from one quiz submission. -/
structure StyleProfile where
  scores : List (String × ℕ)
  primary_style : Option String
  secondary_style : Option String
  confidence : ℚ
  is_hybrid : Bool
  deriving Repr, DecidableEq

/-- Tally of a category over a list of selections. -/
def tallyOf (sels : List QuizSelection) (c : String) : ℕ :=
  sels.countP (fun s => s.style_category == c)

/-- The top tally over the configured categories. -/
def topTallySpec (cats : List String) (sels : List QuizSelection) : ℕ :=
  (cats.map (tallyOf sels)).foldr max 0

/-- Primary style: the first category (in declaration order, the stable
secondary key of spec §4.3 step 5) whose tally reaches the top tally. -/
def primaryStyleSpec (cats : List String) (sels : List QuizSelection) :
    Option String :=
  cats.find? (fun c => tallyOf sels c == topTallySpec cats sels)

/-- The tally of the primary style (0 when there is no category). -/
def primaryTallySpec (cats : List String) (sels : List QuizSelection) : ℕ :=
  match primaryStyleSpec cats sels with
  | some p => tallyOf sels p
  | none => 0

/-- The categories left once the primary style is removed. -/
def secondaryPool (cats : List String) (sels : List QuizSelection) :
    List String :=
  match primaryStyleSpec cats sels with
  | some p => cats.erase p
  | none => []

/-- The top tally among the remaining categories. -/
def secondTallySpec (cats : List String) (sels : List QuizSelection) : ℕ :=
  ((secondaryPool cats sels).map (tallyOf sels)).foldr max 0

/-- Secondary style: the best remaining category, provided its tally is
nonzero (spec §4.3 step 3). -/
def secondaryStyleSpec (cats : List String) (sels : List QuizSelection) :
    Option String :=
  if secondTallySpec cats sels ≠ 0 then
    (secondaryPool cats sels).find?
      (fun c => tallyOf sels c == secondTallySpec cats sels)
  else none

/-- Modelled from the spec: the backend scoring service
(`app/services/quiz/scoring_service.py`) is not in the repository
snapshot, so `build_profile` follows spec §4.3 literally: validate the
submission length, reject unknown categories, tally one point per
selection, pick primary and secondary by tally with ties broken by
category declaration order, flag hybrids on exact top ties, and set
`confidence` to the primary tally over the number of selections, clamped
to the unit interval. -/
def build_profile (cats : List String) (expectedCount : ℕ)
    (sels : List QuizSelection) : Except QuizError StyleProfile :=
  if sels.length ≠ expectedCount then .error .incompleteQuiz
  else if sels.any (fun s => !(cats.contains s.style_category)) then
    .error .unknownCategory
  else
    .ok { scores := cats.map (fun c => (c, tallyOf sels c))
          primary_style := primaryStyleSpec cats sels
          secondary_style := secondaryStyleSpec cats sels
          confidence := clamp01 ((primaryTallySpec cats sels : ℚ) /
            (sels.length : ℚ))
          is_hybrid := (secondaryStyleSpec cats sels).isSome &&
            decide (primaryTallySpec cats sels ≤ secondTallySpec cats sels) }

/-! ## Fusion Engine (spec §4.2) -/

/-- The three independent image-analysis sources. -/
inductive Source where
  | fashionModel
  | visionModel
  | colorHeuristic
  deriving Repr, DecidableEq

/-- One source output for one image: named features with per-feature
confidence. -/
structure FeatureBag where
  source : Source
  features : List (String × ℚ)
  deriving Repr, DecidableEq

/-- The sources that proposed a feature name, with the confidence each
proposed.  Bags whose feature map does not mention the name contribute
nothing. -/
def proposals (bags : List FeatureBag) (name : String) :
    List (Source × ℚ) :=
  bags.filterMap (fun b => (b.features.lookup name).map (fun c => (b.source, c)))

/-- Modelled from the spec: the pieces of the fused confidence of §4.2
step 2, the source-weighted sum divided by the sum of weights over only
the sources that proposed the feature.  No fusion implementation is in
the snapshot (`merge_results` is named but not defined in the production
plan).  The denominator: the sum of the weights of the proposing
sources. -/
def fusionDenominator (w : Source → String → ℚ) (bags : List FeatureBag)
    (name : String) : ℚ :=
  ((proposals bags name).map (fun p => w p.1 name)).sum

/-- The source-weighted sum of the proposed confidences. -/
def fusionNumerator (w : Source → String → ℚ) (bags : List FeatureBag)
    (name : String) : ℚ :=
  ((proposals bags name).map (fun p => w p.1 name * p.2)).sum

/-- The fused confidence: weighted sum over proposing sources divided by
the sum of their weights (0 when nothing proposed the feature). -/
def fusedConfidence (w : Source → String → ℚ) (bags : List FeatureBag)
    (name : String) : ℚ :=
  if fusionDenominator w bags name = 0 then 0
  else fusionNumerator w bags name / fusionDenominator w bags name

/-- Namespace of a feature name: the part before the colon, as in
`color:navy` or `style:casual`. -/
def featureNamespace (name : String) : String :=
  name.takeWhile (fun c => c ≠ ':')

/-- Modelled from the spec: a concrete source-reliability weight table
realising the qualitative priorities of §4.2 step 2 — the fashion model
outweighs the vision model on `style` and `category` namespaces, the
color heuristic outweighs both on `color`, and all namespaces without a
special rule (such as `material`) weigh the three sources equally.  All
weights are positive. -/
def sourceWeight (s : Source) (name : String) : ℚ :=
  if featureNamespace name = "style" ∨ featureNamespace name = "category" then
    match s with
    | .fashionModel => 1/2
    | .visionModel => 3/10
    | .colorHeuristic => 1/5
  else if featureNamespace name = "color" then
    match s with
    | .fashionModel => 1/4
    | .visionModel => 1/4
    | .colorHeuristic => 1/2
  else 1/3

/-- Every feature name appearing in any bag, first appearance first. -/
def candidateNames (bags : List FeatureBag) : List String :=
  ((bags.map (fun b => b.features.map Prod.fst)).flatten).dedup

/-- The minimum fused confidence a feature must reach to survive
(spec §4.2 step 3, default 0.35). -/
def minConfidenceThreshold : ℚ := 35/100

/-- Namespaces that are exclusive by construction (spec §4.2 step 4
names the dominant color as the example). -/
def exclusiveNamespaces : List String := ["color"]

/-- The highest-confidence feature of a namespace, earliest first on
ties. -/
def bestInNamespace (feats : List (String × ℚ)) (ns : String) :
    Option (String × ℚ) :=
  (feats.filter (fun f => featureNamespace f.1 == ns)).foldl
    (fun acc f =>
      match acc with
      | none => some f
      | some g => if g.2 < f.2 then some f else some g)
    none

/-- Keep every survivor of a non-exclusive namespace, and only the
highest-confidence survivor of an exclusive one. -/
def keepExclusive (feats : List (String × ℚ)) : List (String × ℚ) :=
  feats.filter (fun f =>
    !(exclusiveNamespaces.contains (featureNamespace f.1)) ||
      decide (bestInNamespace feats (featureNamespace f.1) = some f))

/-- Provenance of a feature: the sources that proposed it. -/
def provenanceOf (bags : List FeatureBag) (name : String) : List Source :=
  (proposals bags name).map Prod.fst

/-- The fused, deduplicated feature set of one garment image. -/
structure ConsensusFeatureSet where
  features : List (String × ℚ)
  provenance : List (String × List Source)
  deriving Repr, DecidableEq

/-- Modelled from the spec: `fuse` per §4.2 steps 2 to 5 — fuse every
candidate name by weighted consensus, drop fused features below the
threshold, prune exclusive namespaces to their best survivor, and record
as provenance the proposing sources of each survivor. -/
def fuse (bags : List FeatureBag) : ConsensusFeatureSet :=
  let surviving := keepExclusive ((candidateNames bags).filterMap (fun n =>
    let c := fusedConfidence sourceWeight bags n
    if minConfidenceThreshold ≤ c then some (n, c) else none))
  { features := surviving
    provenance := surviving.map (fun f => (f.1, provenanceOf bags f.1)) }

/-! ## Hybrid analyzer cache (`production-plan.md`,
`HybridClothingAnalyzer.analyze`) -/

/-- One Redis cache entry: key, cached value and absolute expiry time
(set time plus ttl). -/
structure CacheEntry (α : Type) where
  key : String
  value : α
  expiresAt : ℕ
  deriving Repr, DecidableEq

/-- `cache.get`: the entry for the key, provided it has not reached its
expiry time. -/
def cacheGet {α : Type} (store : List (CacheEntry α)) (now : ℕ)
    (k : String) : Option α :=
  (store.find? (fun e => e.key == k && decide (now < e.expiresAt))).map
    CacheEntry.value

/-- `cache.set(key, value, ttl)`: record the value with its absolute
expiry time. -/
def cacheSet {α : Type} (store : List (CacheEntry α)) (now : ℕ)
    (k : String) (v : α) (ttl : ℕ) : List (CacheEntry α) :=
  ⟨k, v, now + ttl⟩ :: store

/-- `HybridClothingAnalyzer.analyze` from the production plan: hash the
image, return the cached consensus on a hit, otherwise fuse the source
results and write the consensus through the cache with `ttl=3600`.  The
returned flag records whether the call was served from the cache; the
image hash and the extracted bags stand for `image_data` after hashing
and source extraction. -/
def analyze (now : ℕ) (store : List (CacheEntry ConsensusFeatureSet))
    (imageHash : String) (bags : List FeatureBag) :
    ConsensusFeatureSet × Bool × List (CacheEntry ConsensusFeatureSet) :=
  match cacheGet store now imageHash with
  | some v => (v, true, store)
  | none =>
      let v := fuse bags
      (v, false, cacheSet store now imageHash v 3600)

/-! ## Outfit match scoring (`production-plan.md`,
`calculate_personalized_match_score`) -/

/-- `calculate_personalized_match_score`: the four base scores combined
with weights 0.35 / 0.25 / 0.20 / 0.20, multiplied by one plus the user
preference boost, capped at 1.0 with `min`. -/
def calculate_personalized_match_score (semantic style_consistency
    category_appropriateness color_harmony personalization_boost : ℚ) : ℚ :=
  min ((semantic * (35/100) + style_consistency * (25/100) +
        category_appropriateness * (20/100) + color_harmony * (20/100)) *
       (1 + personalization_boost)) 1

/-! ## Outfit Matcher (spec §4.4) -/

/-- An outfit slot to be filled by a matched garment. -/
inductive Role where
  | top
  | outerwear
  | bottom
  | shoes
  | accessory
  deriving Repr, DecidableEq, BEq

/-- The target description of one role inside an `OutfitRequestSpec`:
free-text type label, a FeatureBag-shaped feature description and an
optional stated color preference. -/
structure RoleTarget where
  typeLabel : String
  features : List (String × ℚ)
  color : Option String
  deriving Repr, DecidableEq

/-- The structured outfit target produced from the generator response:
each requested role with its target. -/
structure OutfitRequestSpec where
  roles : List (Role × RoleTarget)
  deriving Repr, DecidableEq

/-- An inventory item: category, consensus features, embedding and
color. -/
structure GarmentRecord where
  category : String
  features : List (String × ℚ)
  embedding : List ℚ
  color : String
  deriving Repr, DecidableEq

/-- The four component scores and the combined overall score of one
candidate for one role. -/
structure ScoreBreakdown where
  semantic : ℚ
  style_consistency : ℚ
  category_appropriateness : ℚ
  color_harmony : ℚ
  overall : ℚ
  deriving Repr, DecidableEq

/-- Per-role result: the chosen garment, or none when the role is
unmatched, with the score breakdown of the chosen garment. -/
structure MatchResult where
  role : Role
  garment : Option GarmentRecord
  breakdown : Option ScoreBreakdown
  deriving Repr, DecidableEq

/-- Modelled from the spec: the inventory category a role expects
exactly (§4.4 step 2, category_appropriateness is 1.0 on an exact
match). -/
def expectedCategory : Role → String
  | .top => "tops"
  | .outerwear => "outerwear"
  | .bottom => "bottoms"
  | .shoes => "shoes"
  | .accessory => "accessories"

/-- Modelled from the spec: the categories compatible with a role
(§4.4 step 1), the exact category plus sibling categories such as
`formal` outer layers substituting for outerwear. -/
def roleCompatible (r : Role) (category : String) : Bool :=
  match r with
  | .top => category ∈ ["tops", "activewear"]
  | .outerwear => category ∈ ["outerwear", "formal"]
  | .bottom => category ∈ ["bottoms", "activewear"]
  | .shoes => category ∈ ["shoes"]
  | .accessory => category ∈ ["accessories"]

/-- Jaccard-style overlap between two feature-name lists: shared names
over distinct names, 0 when both are empty. -/
def jaccardNames (xs ys : List String) : ℚ :=
  let u := (xs ++ ys).dedup
  if u.length = 0 then 0
  else ((xs.dedup.filter (fun x => ys.contains x)).length : ℚ) /
    (u.length : ℚ)

/-- Whether a garment carries the `style:` feature of a named style
category. -/
def hasStyleFeature (g : GarmentRecord) (styleName : String) : Bool :=
  g.features.any (fun f => f.1 == "style:" ++ jsToLowerCase styleName)

/-- Modelled from the spec: semantic component (§4.4 step 2).  Role
targets in the request spec carry no embedding, so the specified
fallback applies: Jaccard-style overlap between candidate features and
target features. -/
def semanticScore (target : RoleTarget) (g : GarmentRecord) : ℚ :=
  jaccardNames (g.features.map Prod.fst) (target.features.map Prod.fst)

/-- Modelled from the spec: style_consistency (§4.4 step 2) — overlap
with the primary style, the secondary style at half weight on hybrid
profiles, a neutral 0.5 when no profile is supplied. -/
def styleConsistency (profile : Option StyleProfile) (g : GarmentRecord) : ℚ :=
  match profile with
  | none => 1/2
  | some p =>
    let primaryHit : ℚ := match p.primary_style with
      | some s => if hasStyleFeature g s then 1 else 0
      | none => 1/2
    if p.is_hybrid then
      match p.secondary_style with
      | some s2 =>
          clamp01 (primaryHit + (if hasStyleFeature g s2 then (1:ℚ)/2 else 0))
      | none => primaryHit
    else primaryHit

/-- Modelled from the spec: category_appropriateness (§4.4 step 2) —
1.0 on an exact category match, decayed for compatible siblings, 0 for
incompatible categories. -/
def categoryAppropriateness (r : Role) (g : GarmentRecord) : ℚ :=
  if g.category = expectedCategory r then 1
  else if roleCompatible r g.category then 1/2
  else 0

/-- Modelled from the spec: color_harmony (§4.4 step 2) — compare the
candidate color against the stated target color when one exists, and
secondarily reward coordination with colors already committed to earlier
roles of the same pass. -/
def colorHarmony (target : RoleTarget) (committed : List String)
    (g : GarmentRecord) : ℚ :=
  let base : ℚ := match target.color with
    | some c => if jsToLowerCase c = jsToLowerCase g.color then 1 else 1/4
    | none => 1/2
  clamp01 (base + (if committed.contains g.color then (1:ℚ)/4 else 0))

/-- Modelled from the spec: the full breakdown of one candidate, with
the overall combination of §4.4 step 3 (weights 0.35 / 0.25 / 0.20 /
0.20, clamped to the unit interval). -/
def scoreCandidate (profile : Option StyleProfile) (target : RoleTarget)
    (committed : List String) (r : Role) (g : GarmentRecord) :
    ScoreBreakdown :=
  let sem := semanticScore target g
  let sty := styleConsistency profile g
  let cat := categoryAppropriateness r g
  let col := colorHarmony target committed g
  { semantic := sem
    style_consistency := sty
    category_appropriateness := cat
    color_harmony := col
    overall := clamp01 (sem * (35/100) + sty * (25/100) +
      cat * (20/100) + col * (20/100)) }

/-- Best candidate per §4.4 step 4: highest overall, ties by highest
semantic, remaining ties by lowest insertion order (the fold keeps the
earliest candidate unless a strictly better one appears). -/
def pickBest (cands : List (GarmentRecord × ScoreBreakdown)) :
    Option (GarmentRecord × ScoreBreakdown) :=
  cands.foldl
    (fun acc c =>
      match acc with
      | none => some c
      | some b =>
          if b.2.overall < c.2.overall ∨
             (b.2.overall = c.2.overall ∧ b.2.semantic < c.2.semantic) then
            some c
          else some b)
    none

/-- Modelled from the spec: score one role — filter the inventory to
compatible categories, score every compatible candidate, and either pick
the best or report the role unmatched when no compatible garment exists
(§4.4 step 1; an unmatched role is a result, not an error). -/
def matchRole (profile : Option StyleProfile)
    (inventory : List GarmentRecord) (committed : List String) (r : Role)
    (target : RoleTarget) : MatchResult :=
  match pickBest ((inventory.filter
      (fun g => roleCompatible r g.category)).map (fun g =>
      (g, scoreCandidate profile target committed r g))) with
  | none => { role := r, garment := none, breakdown := none }
  | some best =>
      { role := r, garment := some best.1, breakdown := some best.2 }

/-- The fixed scoring order of §4.4 step 2: top, outerwear, bottom,
shoes, accessories, each choice feeding its color forward. -/
def roleOrder : List Role :=
  [.top, .outerwear, .bottom, .shoes, .accessory]

/-- One step of the matching pass: skip roles the request does not ask
for, otherwise match the role and commit the chosen color for later
roles. -/
def matchStep (sp : OutfitRequestSpec) (inventory : List GarmentRecord)
    (profile : Option StyleProfile)
    (acc : List MatchResult × List String) (r : Role) :
    List MatchResult × List String :=
  match sp.roles.lookup r with
  | none => acc
  | some target =>
      (acc.1 ++ [matchRole profile inventory acc.2 r target],
       match (matchRole profile inventory acc.2 r target).garment with
       | some g => acc.2 ++ [g.color]
       | none => acc.2)

/-- Modelled from the spec: the Outfit Matcher — one `MatchResult` per
requested role, scored in the fixed role order with explicit
color-accumulator threading.  Total: an empty or incompatible inventory
produces unmatched results, never an error. -/
def matchOutfit (sp : OutfitRequestSpec) (inventory : List GarmentRecord)
    (profile : Option StyleProfile) : List MatchResult :=
  (roleOrder.foldl (matchStep sp inventory profile) ([], [])).1

/-- A concrete one-source input used to exercise the fusion and cache
definitions on explicit data. -/
def exampleBags : List FeatureBag :=
  [{ source := .fashionModel, features := [("style:casual", 1/2)] }]

/-! ## Helper lemmas -/

theorem lookup_mem {α β : Type} [BEq α] [LawfulBEq α] {l : List (α × β)}
    {a : α} {b : β} (h : l.lookup a = some b) : (a, b) ∈ l := by
  induction l with
  | nil => simp [List.lookup] at h
  | cons hd tl ih =>
    rcases hd with ⟨k, v⟩
    rw [List.lookup_cons] at h
    by_cases hk : (a == k) = true
    · have hak : a = k := by simpa using hk
      rw [hk] at h
      simp only [Option.some.injEq] at h
      subst hak
      subst h
      exact List.mem_cons_self _ _
    · rw [Bool.not_eq_true] at hk
      rw [hk] at h
      exact List.mem_cons_of_mem _ (ih h)

/-! ## Claim theorems -/

/-- C9: for every category key in `CATEGORIES`, mapping to the display
name with `getCategoryDisplayName` and back with
`getBackendCategoryName` returns the key (all display names are
distinct), and a category string absent from `CATEGORY_DISPLAY_NAMES` is
displayed unchanged. -/
theorem C9_display_roundtrip :
    (∀ c ∈ CATEGORIES, getBackendCategoryName (getCategoryDisplayName c) = c) ∧
    (∀ s : String, CATEGORY_DISPLAY_NAMES.lookup s = none →
      getCategoryDisplayName s = s) := by
  refine ⟨by decide, ?_⟩
  intro s h
  simp [getCategoryDisplayName, h]

/-- Witness for C9 at the interesting key (the remapped `formal`
category) and at an unknown category string. -/
theorem C9_display_roundtrip_witness :
    getBackendCategoryName (getCategoryDisplayName ("formal")) = "formal" ∧
      getCategoryDisplayName ("hats") = "hats" :=
  ⟨C9_display_roundtrip.1 ("formal") (by decide),
   C9_display_roundtrip.2 ("hats") (by decide)⟩

/-- C10: `getLatestQuizResponse` never propagates an error to its
caller — for every request outcome it returns normally, with the fetched
response on success and null on any failure. -/
theorem C10_never_throws (useMocks : Bool) (r : ApiOutcome QuizResponse) :
    (∃ v, getLatestQuizResponse useMocks r = .ok v) ∧
    (useMocks = false →
      (∀ d, r = .ok d → getLatestQuizResponse useMocks r = .ok (some d)) ∧
      (∀ m, r = .error m → getLatestQuizResponse useMocks r = .ok none)) := by
  cases useMocks <;> cases r <;> simp [getLatestQuizResponse]

/-- Witness for C10 on a concrete successful request. -/
theorem C10_never_throws_witness :
    getLatestQuizResponse false (ApiOutcome.ok submitQuizMock) =
      .ok (some submitQuizMock) :=
  ((C10_never_throws false (ApiOutcome.ok submitQuizMock)).2 rfl).1
    submitQuizMock rfl

/-- C8 fails on the code: `Feminine` is a known style category of the
quiz, yet the mock `QuizResponse.scores` returned by `submitQuiz` has no
entry for it — unselected categories are absent, not zero-filled. -/
theorem C8_counterexample :
    "Feminine" ∈ mockStyles ∧
      submitQuizMock.scores.lookup ("Feminine") = none := by decide

/-- C8 amended: the `scores` mapping of the quiz response lists only
categories with a non-zero tally — every listed category is a known
style category with a positive score, and at least one known category is
absent rather than zero-filled. -/
theorem C8_amended_scores_sparse :
    (∀ p ∈ submitQuizMock.scores, p.1 ∈ mockStyles ∧ 0 < p.2) ∧
    (∃ c ∈ mockStyles, submitQuizMock.scores.lookup c = none) := by decide

/-- Witness for C8 amended at the Bohemian entry. -/
theorem C8_amended_witness :
    ("Bohemian", (2:ℚ)).1 ∈ mockStyles ∧ 0 < ("Bohemian", (2:ℚ)).2 :=
  C8_amended_scores_sparse.1 ("Bohemian", (2:ℚ)) (by decide)

/-- C1 fails on the documented backend: on the tied submission
Bohemian, Bohemian, Classic, Classic, Streetwear, two runs that make
different random tie choices return different primary styles. -/
theorem C1_counterexample :
    primaryStyleDoc mockStyles
        ["Bohemian", "Bohemian", "Classic", "Classic", "Streetwear"] 0 ≠
      primaryStyleDoc mockStyles
        ["Bohemian", "Bohemian", "Classic", "Classic", "Streetwear"] 1 := by
  decide

/-- C1 amended: the primary style is reproducible across runs exactly
when a single category holds the top tally; on ties the documented
backend selects among the tied categories at random, so identical tied
submissions may differ across runs. -/
theorem C1_amended_unique_top_deterministic (cats sels : List String)
    (h : (topCategoriesDoc cats sels).length = 1) :
    ∀ c1 c2 : ℕ,
      primaryStyleDoc cats sels c1 = primaryStyleDoc cats sels c2 := by
  intro c1 c2
  show (topCategoriesDoc cats sels).get?
      (c1 % (topCategoriesDoc cats sels).length) =
    (topCategoriesDoc cats sels).get?
      (c2 % (topCategoriesDoc cats sels).length)
  rw [h, Nat.mod_one, Nat.mod_one]

/-- Witness for C1 amended on a submission with a unique top tally. -/
theorem C1_amended_witness :
    primaryStyleDoc mockStyles
        ["Bohemian", "Bohemian", "Bohemian", "Classic", "Streetwear"] 0 =
      primaryStyleDoc mockStyles
        ["Bohemian", "Bohemian", "Bohemian", "Classic", "Streetwear"] 7 :=
  C1_amended_unique_top_deterministic mockStyles
    ["Bohemian", "Bohemian", "Bohemian", "Classic", "Streetwear"]
    (by decide) 0 7

/-- C2 fails on the code: with a personalization boost of 1 and
component scores 1, 0, 0, 0 (each in the unit interval) the code returns
0.7, while the claimed pure clamped weighted sum is 0.35. -/
theorem C2_counterexample :
    calculate_personalized_match_score 1 0 0 0 1 ≠
      clamp01 (1 * (35/100) + 0 * (25/100) + 0 * (20/100) + 0 * (20/100)) := by
  norm_num [calculate_personalized_match_score, clamp01, min_def, max_def]

/-- C2 amended: the overall score is the weighted sum multiplied by one
plus the personalization boost and capped at 1; when the boost is zero
it equals the claimed clamped weighted sum, and for any nonnegative
boost it stays in the unit interval. -/
theorem C2_amended_overall_bounds (s st ca ch b : ℚ)
    (hs0 : 0 ≤ s) (hs1 : s ≤ 1) (hst0 : 0 ≤ st) (hst1 : st ≤ 1)
    (hca0 : 0 ≤ ca) (hca1 : ca ≤ 1) (hch0 : 0 ≤ ch) (hch1 : ch ≤ 1)
    (hb : 0 ≤ b) :
    (0 ≤ calculate_personalized_match_score s st ca ch b ∧
      calculate_personalized_match_score s st ca ch b ≤ 1) ∧
    (b = 0 → calculate_personalized_match_score s st ca ch b =
      clamp01 (s * (35/100) + st * (25/100) + ca * (20/100) +
        ch * (20/100))) := by
  have hw0 : 0 ≤ s * (35/100) + st * (25/100) + ca * (20/100) +
      ch * (20/100) := by linarith
  have hw1 : s * (35/100) + st * (25/100) + ca * (20/100) +
      ch * (20/100) ≤ 1 := by linarith
  refine ⟨⟨?_, ?_⟩, ?_⟩
  · unfold calculate_personalized_match_score
    apply le_min
    · exact mul_nonneg hw0 (by linarith)
    · norm_num
  · unfold calculate_personalized_match_score
    exact min_le_right _ _
  · intro hb0
    subst hb0
    unfold calculate_personalized_match_score
    have hmul : (s * (35/100) + st * (25/100) + ca * (20/100) +
        ch * (20/100)) * (1 + 0) =
        s * (35/100) + st * (25/100) + ca * (20/100) + ch * (20/100) := by
      ring
    rw [hmul, min_eq_left hw1]
    unfold clamp01
    rw [min_eq_left hw1, max_eq_right hw0]

/-- Witness for C2 amended at component scores 1, 0, 0, 0 and boost
0. -/
theorem C2_amended_witness :
    0 ≤ calculate_personalized_match_score 1 0 0 0 0 ∧
      calculate_personalized_match_score 1 0 0 0 0 ≤ 1 :=
  (C2_amended_overall_bounds 1 0 0 0 0 (by norm_num) (by norm_num)
    (by norm_num) (by norm_num) (by norm_num) (by norm_num) (by norm_num)
    (by norm_num) (by norm_num)).1

theorem foldr_max_zero_mem (l : List ℕ) :
    l.foldr max 0 = 0 ∨ l.foldr max 0 ∈ l := by
  induction l with
  | nil => exact Or.inl rfl
  | cons a t ih =>
    simp only [List.foldr_cons]
    rcases le_or_lt (t.foldr max 0) a with hle | hlt
    · exact Or.inr (by rw [max_eq_left hle]; exact List.mem_cons_self _ _)
    · rw [max_eq_right hlt.le]
      rcases ih with h0 | hmem
      · rw [h0] at hlt
        exact absurd hlt (Nat.not_lt_zero a)
      · exact Or.inr (List.mem_cons_of_mem _ hmem)

theorem primaryTallySpec_eq_top (cats : List String)
    (sels : List QuizSelection) :
    primaryTallySpec cats sels = topTallySpec cats sels := by
  unfold primaryTallySpec primaryStyleSpec
  cases hf : cats.find? (fun c => tallyOf sels c == topTallySpec cats sels) with
  | some c =>
    have hc := List.find?_some hf
    simp only [beq_iff_eq] at hc
    simp [hc]
  | none =>
    show (0:ℕ) = topTallySpec cats sels
    rw [List.find?_eq_none] at hf
    rcases foldr_max_zero_mem (cats.map (tallyOf sels)) with h0 | hmem
    · unfold topTallySpec
      exact h0.symm
    · rw [List.mem_map] at hmem
      obtain ⟨c, hc, htc⟩ := hmem
      exact absurd (by simp [topTallySpec, htc]) (hf c hc)

/-- C3: whenever `build_profile` accepts a submission, the confidence of
the produced profile is exactly the top category tally divided by the
number of selections, clamped to the unit interval. -/
theorem C3_confidence_exact (cats : List String) (expected : ℕ)
    (sels : List QuizSelection) (p : StyleProfile)
    (h : build_profile cats expected sels = .ok p) :
    p.confidence =
      clamp01 ((topTallySpec cats sels : ℚ) / (sels.length : ℚ)) := by
  unfold build_profile at h
  by_cases hlen : sels.length ≠ expected
  · rw [if_pos hlen] at h
    cases h
  · rw [if_neg hlen] at h
    by_cases hany :
        sels.any (fun s => !(cats.contains s.style_category)) = true
    · rw [if_pos hany] at h
      cases h
    · rw [if_neg hany] at h
      injection h with hp
      subst hp
      show clamp01 ((primaryTallySpec cats sels : ℚ) / (sels.length : ℚ)) = _
      rw [primaryTallySpec_eq_top]

/-- Witness for C3 on a concrete accepted two-question submission. -/
theorem C3_confidence_witness :
    ∃ p : StyleProfile,
      build_profile ["A", "B"] 2
          [⟨"q1", "i1", "A"⟩, ⟨"q2", "i2", "B"⟩] = .ok p ∧
      p.confidence =
        clamp01 ((topTallySpec ["A", "B"]
            [⟨"q1", "i1", "A"⟩, ⟨"q2", "i2", "B"⟩] : ℚ) /
          (([⟨"q1", "i1", "A"⟩, ⟨"q2", "i2", "B"⟩] :
            List QuizSelection).length : ℚ)) := by
  obtain ⟨p, hp⟩ :
      ∃ p, build_profile ["A", "B"] 2
        [⟨"q1", "i1", "A"⟩, ⟨"q2", "i2", "B"⟩] = .ok p := ⟨_, rfl⟩
  exact ⟨p, hp, C3_confidence_exact _ _ _ _ hp⟩

/-- C6: a selection whose style category is outside the configured set
is never absorbed into the tally — `build_profile` cannot succeed on
such a list, and on a complete submission it fails with the
unknown-category error. -/
theorem C6_unknown_category_rejected (cats : List String) (expected : ℕ)
    (sels : List QuizSelection)
    (hbad : ∃ s ∈ sels, s.style_category ∉ cats) :
    (∀ p : StyleProfile, build_profile cats expected sels ≠ .ok p) ∧
    (sels.length = expected →
      build_profile cats expected sels = .error .unknownCategory) := by
  have hany : sels.any (fun s => !(cats.contains s.style_category)) = true := by
    rw [List.any_eq_true]
    obtain ⟨s, hs, hns⟩ := hbad
    exact ⟨s, hs, by simpa using hns⟩
  constructor
  · intro p
    unfold build_profile
    by_cases hlen : sels.length ≠ expected
    · rw [if_pos hlen]
      exact fun h => Except.noConfusion h
    · rw [if_neg hlen, if_pos hany]
      exact fun h => Except.noConfusion h
  · intro hlen
    unfold build_profile
    rw [if_neg (by simp [hlen]), if_pos hany]

/-- Witness for C6 on a submission carrying a category outside the
configured set. -/
theorem C6_unknown_category_witness :
    build_profile ["A"] 1 [⟨"q1", "i1", "Z"⟩] = .error .unknownCategory :=
  (C6_unknown_category_rejected ["A"] 1 [⟨"q1", "i1", "Z"⟩]
    ⟨⟨"q1", "i1", "Z"⟩, by decide, by decide⟩).2 rfl

theorem sourceWeight_pos (s : Source) (n : String) : 0 < sourceWeight s n := by
  unfold sourceWeight
  split_ifs <;> cases s <;> norm_num

theorem proposals_confidence_bounds (bags : List FeatureBag) (name : String)
    (hc : ∀ b ∈ bags, ∀ p ∈ b.features, 0 ≤ p.2 ∧ p.2 ≤ 1) :
    ∀ q ∈ proposals bags name, 0 ≤ q.2 ∧ q.2 ≤ 1 := by
  intro q hq
  simp only [proposals, List.mem_filterMap] at hq
  obtain ⟨b, hb, hmap⟩ := hq
  cases hlk : b.features.lookup name with
  | none =>
    rw [hlk] at hmap
    simp at hmap
  | some c =>
    rw [hlk] at hmap
    simp only [Option.map_some', Option.some.injEq] at hmap
    subst hmap
    simpa using hc b hb (name, c) (lookup_mem hlk)

theorem fusedConfidence_bounds (w : Source → String → ℚ)
    (bags : List FeatureBag) (name : String)
    (hw : ∀ s n, 0 < w s n)
    (hc : ∀ b ∈ bags, ∀ p ∈ b.features, 0 ≤ p.2 ∧ p.2 ≤ 1) :
    0 ≤ fusedConfidence w bags name ∧ fusedConfidence w bags name ≤ 1 := by
  have hprop := proposals_confidence_bounds bags name hc
  unfold fusedConfidence
  by_cases hden : fusionDenominator w bags name = 0
  · rw [if_pos hden]
    norm_num
  · rw [if_neg hden]
    have hden0 : 0 ≤ fusionDenominator w bags name := by
      unfold fusionDenominator
      apply List.sum_nonneg
      intro x hx
      rw [List.mem_map] at hx
      obtain ⟨q, hq, hxq⟩ := hx
      subst hxq
      exact (hw q.1 name).le
    have hdenpos : 0 < fusionDenominator w bags name :=
      lt_of_le_of_ne hden0 (Ne.symm hden)
    have hnum0 : 0 ≤ fusionNumerator w bags name := by
      unfold fusionNumerator
      apply List.sum_nonneg
      intro x hx
      rw [List.mem_map] at hx
      obtain ⟨q, hq, hxq⟩ := hx
      subst hxq
      exact mul_nonneg (hw q.1 name).le (hprop q hq).1
    have hnumle : fusionNumerator w bags name ≤
        fusionDenominator w bags name := by
      unfold fusionNumerator fusionDenominator
      apply List.sum_le_sum
      intro q hq
      exact mul_le_of_le_one_right (hw q.1 name).le (hprop q hq).2
    exact ⟨div_nonneg hnum0 hden0, (div_le_one hdenpos).mpr hnumle⟩

theorem fusedConfidence_cons_not_proposed (w : Source → String → ℚ)
    (b : FeatureBag) (bags : List FeatureBag) (name : String)
    (h : b.features.lookup name = none) :
    fusedConfidence w (b :: bags) name = fusedConfidence w bags name := by
  have hp : proposals (b :: bags) name = proposals bags name := by
    unfold proposals
    rw [List.filterMap_cons, h]
    simp
  unfold fusedConfidence fusionNumerator fusionDenominator
  rw [hp]

/-- C4: with positive source weights and per-feature confidences in the
unit interval, every fused confidence lies in the unit interval; a bag
that did not propose a feature contributes nothing to its fused value;
and every confidence surviving in the consensus set built by `fuse` with
the concrete weight table lies in the unit interval. -/
theorem C4_fused_confidence_bounds (w : Source → String → ℚ)
    (bags : List FeatureBag)
    (hw : ∀ s n, 0 < w s n)
    (hc : ∀ b ∈ bags, ∀ p ∈ b.features, 0 ≤ p.2 ∧ p.2 ≤ 1) :
    (∀ name, 0 ≤ fusedConfidence w bags name ∧
      fusedConfidence w bags name ≤ 1) ∧
    (∀ (name : String) (b : FeatureBag), b.features.lookup name = none →
      fusedConfidence w (b :: bags) name = fusedConfidence w bags name) ∧
    (∀ p ∈ (fuse bags).features, 0 ≤ p.2 ∧ p.2 ≤ 1) := by
  refine ⟨fun name => fusedConfidence_bounds w bags name hw hc,
    fun name b h => fusedConfidence_cons_not_proposed w b bags name h, ?_⟩
  intro p hp
  have hp1 : p ∈ (candidateNames bags).filterMap (fun n =>
      if minConfidenceThreshold ≤ fusedConfidence sourceWeight bags n then
        some (n, fusedConfidence sourceWeight bags n) else none) :=
    (List.mem_filter.mp hp).1
  rw [List.mem_filterMap] at hp1
  obtain ⟨n, hn, hif⟩ := hp1
  by_cases hth : minConfidenceThreshold ≤ fusedConfidence sourceWeight bags n
  · rw [if_pos hth] at hif
    injection hif with hpe
    subst hpe
    simpa using fusedConfidence_bounds sourceWeight bags n sourceWeight_pos hc
  · rw [if_neg hth] at hif
    cases hif

/-- Witness for C4 on a concrete one-bag input with unit weights. -/
theorem C4_fused_confidence_witness :
    0 ≤ fusedConfidence (fun _ _ => (1:ℚ)) exampleBags ("style:casual") ∧
      fusedConfidence (fun _ _ => (1:ℚ)) exampleBags ("style:casual") ≤ 1 :=
  (C4_fused_confidence_bounds (fun _ _ => 1) exampleBags
    (fun _ _ => one_pos) (by norm_num [exampleBags])).1 ("style:casual")

/-- C5 fails on the code: `analyze` writes cache entries with a 3600
second ttl, so a second call with the identical image hash and inputs
one hour later is not served from the cache — the entry has expired
implicitly even though the image was never replaced. -/
theorem C5_cache_ttl_counterexample :
    (analyze 3600 (analyze 0 [] ("imghash") exampleBags).2.2 ("imghash")
      exampleBags).2.1 = false := by decide

theorem analyze_first_call (t0 : ℕ) (hash : String)
    (bags : List FeatureBag) :
    analyze t0 [] hash bags =
      (fuse bags, false, cacheSet [] t0 hash (fuse bags) 3600) := by
  unfold analyze cacheGet
  simp [List.find?]

/-- C5 amended: calling `analyze` twice with the same image hash and the
same inputs always returns an identical consensus feature set, and the
second call is served from the cache exactly when it happens within the
3600 second ttl of the first write; after the ttl the entry has expired
and the consensus is recomputed. -/
theorem C5_amended_cache_semantics (t0 t1 : ℕ) (hash : String)
    (bags : List FeatureBag) :
    ((analyze t1 (analyze t0 [] hash bags).2.2 hash bags).1 =
      (analyze t0 [] hash bags).1) ∧
    (t1 < t0 + 3600 →
      (analyze t1 (analyze t0 [] hash bags).2.2 hash bags).2.1 = true) := by
  rw [analyze_first_call]
  by_cases ht : t1 < t0 + 3600
  · have hget : cacheGet (cacheSet [] t0 hash (fuse bags) 3600) t1 hash =
        some (fuse bags) := by
      unfold cacheSet cacheGet
      rw [List.find?_cons_of_pos _ (by simp [ht])]
      simp
    constructor
    · unfold analyze
      rw [hget]
    · intro _
      unfold analyze
      rw [hget]
  · have hget : cacheGet (cacheSet [] t0 hash (fuse bags) 3600) t1 hash =
        none := by
      unfold cacheSet cacheGet
      rw [List.find?_cons_of_neg _ (by simp [ht])]
      simp [List.find?]
    constructor
    · unfold analyze
      rw [hget]
    · intro h
      exact absurd h ht

/-- Witness for C5 amended: a second call ten seconds after the first is
a cache hit. -/
theorem C5_amended_witness :
    (analyze 10 (analyze 0 [] ("imghash") exampleBags).2.2 ("imghash")
      exampleBags).2.1 = true :=
  (C5_amended_cache_semantics 0 10 ("imghash") exampleBags).2 (by norm_num)

theorem matchRole_no_candidates (profile : Option StyleProfile)
    (inventory : List GarmentRecord) (committed : List String) (r : Role)
    (target : RoleTarget)
    (h : inventory.filter (fun g => roleCompatible r g.category) = []) :
    matchRole profile inventory committed r target =
      { role := r, garment := none, breakdown := none } := by
  unfold matchRole
  rw [h]
  rfl

theorem matchStep_empty_preserves (sp : OutfitRequestSpec)
    (profile : Option StyleProfile) (rs : List Role)
    (acc : List MatchResult × List String)
    (hacc : ∀ res ∈ acc.1, res.garment = none ∧ res.breakdown = none) :
    ∀ res ∈ (rs.foldl (matchStep sp [] profile) acc).1,
      res.garment = none ∧ res.breakdown = none := by
  induction rs generalizing acc with
  | nil => exact hacc
  | cons r rs ih =>
    rw [List.foldl_cons]
    apply ih
    intro res hres
    unfold matchStep at hres
    cases hsp : sp.roles.lookup r with
    | none =>
      rw [hsp] at hres
      exact hacc res hres
    | some target =>
      rw [hsp] at hres
      rw [List.mem_append] at hres
      rcases hres with hl | hr
      · exact hacc res hl
      · rw [List.mem_singleton] at hr
        subst hr
        rw [matchRole_no_candidates profile [] acc.2 r target rfl]
        exact ⟨rfl, rfl⟩

/-- C7: on an empty inventory the Outfit Matcher reports every requested
role unmatched (a result, not an error — `matchOutfit` is a total
function), and any role whose compatible-category filter is empty is
likewise unmatched. -/
theorem C7_empty_inventory_unmatched (sp : OutfitRequestSpec)
    (profile : Option StyleProfile) :
    (∀ res ∈ matchOutfit sp [] profile,
      res.garment = none ∧ res.breakdown = none) ∧
    (∀ (inventory : List GarmentRecord) (committed : List String)
      (r : Role) (target : RoleTarget),
      inventory.filter (fun g => roleCompatible r g.category) = [] →
      (matchRole profile inventory committed r target).garment = none) := by
  constructor
  · intro res hres
    exact matchStep_empty_preserves sp profile roleOrder ([], [])
      (fun x hx => absurd hx (List.not_mem_nil x)) res hres
  · intro inventory committed r target h
    rw [matchRole_no_candidates profile inventory committed r target h]

/-- Witness for C7 on a concrete role with an empty inventory. -/
theorem C7_empty_inventory_witness :
    (matchRole (none : Option StyleProfile) [] [] Role.top
      { typeLabel := "t-shirt", features := [], color := none }).garment =
      none :=
  (C7_empty_inventory_unmatched { roles := [] } none).2 [] [] Role.top
    { typeLabel := "t-shirt", features := [], color := none } rfl
